import Mathlib

/-!
Shallow embedding of the ssd1331 OLED display driver crate
(rust-embedded-community/ssd1331), covering the command codec
(src/command.rs), the error type (src/error.rs) and the display driver
state machine (src/display.rs): framebuffer, set_pixel, flush, init,
set_rotation, dimensions.

Machine integers are modelled as Nat.  Arguments typed u8/u16/u32 in the
Rust source are Nat here; where a claim depends on the width, the theorem
carries the corresponding bound as a hypothesis.  All intermediate
arithmetic in the embedded functions stays far below 2 to the 64, so usize
arithmetic never wraps and plain Nat is faithful.

The SPI transport and the data/command GPIO pin are opaque capabilities in
the crate (embedded-hal traits).  They are modelled by a scripted bus: a
Bus value carries, for each of the two capabilities, a script of outcomes
consumed one per call (an empty script means every call succeeds), plus a
trace of the pin levels successfully set and of the byte chunks
successfully written.
-/

namespace SSD1331

/-- Modelled from the source constant DISPLAY_WIDTH in src/lib.rs (96). -/
def DISPLAY_WIDTH : Nat := 96

/-- Modelled from the source constant DISPLAY_HEIGHT in src/lib.rs (64). -/
def DISPLAY_HEIGHT : Nat := 64

/-- 96px x 64px screen with 16 bits (2 bytes) per pixel (src/display.rs BUF_SIZE). -/
def BUF_SIZE : Nat := 96 * 64 * 2

/-- Modelled from the spec: the four-state rotation enumeration.  The module
src/displayrotation.rs is declared in src/lib.rs but its file is not present
under src/; its four variants Rotate0, Rotate90, Rotate180, Rotate270 are
fully determined by the match arms of src/display.rs. -/
inductive DisplayRotation
| Rotate0
| Rotate90
| Rotate180
| Rotate270
deriving DecidableEq, Repr

/-- Color mode (src/command.rs). -/
inductive ColorMode
| CM256
| CM65k
deriving DecidableEq, Repr

/-- The discriminant value of a ColorMode, as produced by the Rust cast
cmode as u8 (CM256 = 0x00, CM65k = 0x01). -/
def ColorMode.toU8 : ColorMode → Nat
| .CM256 => 0x00
| .CM65k => 0x01

/-- Address increment mode (src/command.rs). -/
inductive AddressIncrementMode
| Horizontal
| Vertical
deriving DecidableEq, Repr

/-- Discriminant of an AddressIncrementMode (Horizontal = 0x00, Vertical = 0x01). -/
def AddressIncrementMode.toU8 : AddressIncrementMode → Nat
| .Horizontal => 0x00
| .Vertical => 0x01

/-- Vcomh Deselect level (src/command.rs). -/
inductive VcomhLevel
| V044
| V052
| V061
| V071
| V083
deriving DecidableEq, Repr

/-- Discriminant of a VcomhLevel, per the Rust enum discriminants. -/
def VcomhLevel.toU8 : VcomhLevel → Nat
| .V044 => 0b00000
| .V052 => 0b01000
| .V061 => 0b10000
| .V071 => 0b11000
| .V083 => 0b11111

/-- The Rust cast b as u8 for a bool. -/
def boolToU8 (b : Bool) : Nat := if b then 1 else 0

/-- SSD1331 commands (src/command.rs).  Payloads typed u8/u16 in Rust are
Nat here. -/
inductive Command
| Contrast (a b c : Nat)
| AllOn (onv : Bool)
| Invert (inv : Bool)
| DisplayOn (onv : Bool)
| ColumnAddress (start finish : Nat)
| RowAddress (start finish : Nat)
| StartLine (line : Nat)
| RemapAndColorDepth (hremap vremap : Bool) (cmode : ColorMode) (addr_inc_mode : AddressIncrementMode)
| Multiplex (ratio : Nat)
| ReverseComDir (rev : Bool)
| DisplayOffset (offset : Nat)
| ComPinConfig (alt lr : Bool)
| DisplayClockDiv (fosc div : Nat)
| PreChargePeriod (phase1 phase2 : Nat)
| VcomhDeselect (level : VcomhLevel)
| Noop
| DrawLine (c1 r1 c2 r2 : Nat) (color_raw16 : Nat)
| DrawRect (c1 r1 c2 r2 : Nat) (line_raw16 fill_raw16 : Nat)
| EnableFill (onv : Bool)
deriving DecidableEq, Repr

/-- Raw converter from an Rgb565 u16 to the bytes the ssd1331 expects for
rgb in accelerated graphics commands (src/command.rs raw16_to_ssd1331_accel).
Returns (a, b, c) = (blue byte, green byte, red byte); each Rust as-u8 cast
is the explicit % 256. -/
def raw16_to_ssd1331_accel (raw : Nat) : Nat × Nat × Nat :=
  let RED_MASK : Nat := 0b1111100000000000
  let GREEN_MASK : Nat := 0b0000011111100000
  let BLUE_MASK : Nat := 0b0000000000011111
  let a := ((raw &&& BLUE_MASK) <<< 1) % 256
  let b := ((raw &&& GREEN_MASK) >>> 5) % 256
  let c := ((raw &&& RED_MASK) >>> 10) % 256
  (a, b, c)

/-- The fixed-size 11-byte array and the real length computed by the match
inside Command::send (src/command.rs lines 83-150). -/
def Command.encodeArr : Command → List Nat × Nat
| .Contrast a b c => ([0x81, a, 0x82, b, 0x83, c, 0, 0, 0, 0, 0], 6)
| .AllOn onv => ([if onv then 0xA5 else 0xA6, 0, 0, 0, 0, 0, 0, 0, 0, 0, 0], 1)
| .Invert inv => ([if inv then 0xA7 else 0xA4, 0, 0, 0, 0, 0, 0, 0, 0, 0, 0], 1)
| .DisplayOn onv => ([0xAE ||| boolToU8 onv, 0, 0, 0, 0, 0, 0, 0, 0, 0, 0], 1)
| .ColumnAddress start finish => ([0x15, start, finish, 0, 0, 0, 0, 0, 0, 0, 0], 3)
| .RowAddress start finish => ([0x75, start, finish, 0, 0, 0, 0, 0, 0, 0, 0], 3)
| .StartLine line => ([0xA1, 0x3F &&& line, 0, 0, 0, 0, 0, 0, 0, 0, 0], 2)
| .RemapAndColorDepth hremap vremap cmode addr_inc_mode =>
    ([0xA0,
      0x20 ||| ((boolToU8 vremap <<< 4) ||| (boolToU8 hremap <<< 1)
        ||| (cmode.toU8 <<< 6) ||| addr_inc_mode.toU8),
      0, 0, 0, 0, 0, 0, 0, 0, 0], 2)
| .Multiplex ratio => ([0xA8, ratio, 0, 0, 0, 0, 0, 0, 0, 0, 0], 2)
| .ReverseComDir rev => ([0xC0 ||| (boolToU8 rev <<< 3), 0, 0, 0, 0, 0, 0, 0, 0, 0, 0], 1)
| .DisplayOffset offset => ([0xA2, offset, 0, 0, 0, 0, 0, 0, 0, 0, 0], 2)
| .ComPinConfig alt lr =>
    ([0xDA, 0x2 ||| (boolToU8 alt <<< 4) ||| (boolToU8 lr <<< 5), 0, 0, 0, 0, 0, 0, 0, 0, 0], 2)
| .DisplayClockDiv fosc div =>
    ([0xB3, ((0xF &&& fosc) <<< 4) ||| (0xF &&& div), 0, 0, 0, 0, 0, 0, 0, 0, 0], 2)
| .PreChargePeriod phase1 phase2 =>
    ([0x3e, ((0xF &&& phase2) <<< 4) ||| (0xF &&& phase1), 0, 0, 0, 0, 0, 0, 0, 0, 0], 2)
| .VcomhDeselect level => ([0xBE, level.toU8 <<< 1, 0, 0, 0, 0, 0, 0, 0, 0, 0], 2)
| .Noop => ([0xE3, 0, 0, 0, 0, 0, 0, 0, 0, 0, 0], 1)
| .DrawLine c1 r1 c2 r2 color_raw16 =>
    let abc := raw16_to_ssd1331_accel color_raw16
    ([0x21, c1, r1, c2, r2, abc.2.2, abc.2.1, abc.1, 0, 0, 0], 8)
| .DrawRect c1 r1 c2 r2 line_raw16 fill_raw16 =>
    let l := raw16_to_ssd1331_accel line_raw16
    let f := raw16_to_ssd1331_accel fill_raw16
    ([0x22, c1, r1, c2, r2, l.2.2, l.2.1, l.1, f.2.2, f.2.1, f.1], 11)
| .EnableFill onv => ([0x26, if onv then 0x01 else 0x00, 0, 0, 0, 0, 0, 0, 0, 0, 0], 2)

/-- The byte slice data[0..len] that Command::send passes to spi.write. -/
def Command.bytes (c : Command) : List Nat :=
  (Command.encodeArr c).1.take (Command.encodeArr c).2

/-- Enum of errors in this crate (src/error.rs). -/
inductive Error (CommE PinE : Type)
| Comm (e : CommE)
| Pin (e : PinE)

/-- Scripted model of the SPI transport plus data/command pin pair.  Each
pin-set call consumes the head of dcFailures and each transport write
consumes the head of commFailures; a missing entry (empty script) means
success.  dcTrace records the pin levels successfully set (true = high,
data; false = low, command) and writes records the chunks successfully
written, in order. -/
structure Bus (CommE PinE : Type) where
  dcFailures : List (Option PinE)
  commFailures : List (Option CommE)
  dcTrace : List Bool
  writes : List (List Nat)

/-- A bus on which every call succeeds and nothing has been traced yet. -/
def emptyBus (CommE PinE : Type) : Bus CommE PinE :=
  { dcFailures := [], commFailures := [], dcTrace := [], writes := [] }

/-- One call to dc.set_low / dc.set_high (OutputPin capability). -/
def Bus.setDc (bus : Bus CommE PinE) (level : Bool) :
    Except PinE Unit × Bus CommE PinE :=
  match bus.dcFailures with
  | [] => (Except.ok (), { bus with dcTrace := bus.dcTrace ++ [level] })
  | none :: rest =>
      (Except.ok (), { bus with dcFailures := rest, dcTrace := bus.dcTrace ++ [level] })
  | some e :: rest => (Except.error e, { bus with dcFailures := rest })

/-- One call to spi.write(bytes) (blocking SPI write capability). -/
def Bus.spiWrite (bus : Bus CommE PinE) (bytes : List Nat) :
    Except CommE Unit × Bus CommE PinE :=
  match bus.commFailures with
  | [] => (Except.ok (), { bus with writes := bus.writes ++ [bytes] })
  | none :: rest =>
      (Except.ok (), { bus with commFailures := rest, writes := bus.writes ++ [bytes] })
  | some e :: rest => (Except.error e, { bus with commFailures := rest })

/-- Command::send (src/command.rs lines 152-157): drive the data/command
pin low (command mode), then write the encoded bytes; each failure is
mapped to its Error constructor and aborts. -/
def Command.send (c : Command) (bus : Bus CommE PinE) :
    Except (Error CommE PinE) Unit × Bus CommE PinE :=
  match bus.setDc false with
  | (Except.error e, bus1) => (Except.error (Error.Pin e), bus1)
  | (Except.ok _, bus1) =>
      match bus1.spiWrite c.bytes with
      | (Except.error e, bus2) => (Except.error (Error.Comm e), bus2)
      | (Except.ok _, bus2) => (Except.ok (), bus2)

/-- SSD1331 display driver state (src/display.rs struct Ssd1331).  The SPI
and DC fields are folded into the single scripted bus. -/
structure Ssd1331 (CommE PinE : Type) where
  buffer : List Nat
  display_rotation : DisplayRotation
  bus : Bus CommE PinE

/-- Ssd1331::new (src/display.rs): zero-filled buffer of BUF_SIZE bytes. -/
def Ssd1331.new (bus : Bus CommE PinE) (display_rotation : DisplayRotation) :
    Ssd1331 CommE PinE :=
  { buffer := List.replicate BUF_SIZE 0, display_rotation := display_rotation, bus := bus }

/-- Ssd1331::clear (src/display.rs): zero-fill the buffer. -/
def Ssd1331.clear (d : Ssd1331 CommE PinE) : Ssd1331 CommE PinE :=
  { d with buffer := List.replicate BUF_SIZE 0 }

/-- Send one command through the display driver state (the pattern
Command::...(..).send(&mut self.spi, &mut self.dc) of src/display.rs). -/
def Ssd1331.sendCmd (d : Ssd1331 CommE PinE) (c : Command) :
    Except (Error CommE PinE) Unit × Ssd1331 CommE PinE :=
  match c.send d.bus with
  | (r, bus1) => (r, { d with bus := bus1 })

/-- Ssd1331::set_draw_area (src/display.rs lines 222-230). -/
def Ssd1331.set_draw_area (d : Ssd1331 CommE PinE) (start finish : Nat × Nat) :
    Except (Error CommE PinE) Unit × Ssd1331 CommE PinE :=
  match d.sendCmd (Command.ColumnAddress start.1 finish.1) with
  | (Except.error e, d1) => (Except.error e, d1)
  | (Except.ok _, d1) =>
      match d1.sendCmd (Command.RowAddress start.2 finish.2) with
      | (Except.error e, d2) => (Except.error e, d2)
      | (Except.ok _, d2) => (Except.ok (), d2)

/-- Ssd1331::flush (src/display.rs lines 208-219): reset the draw area to
the full display, drive the DC pin high (data mode), then write the whole
buffer. -/
def Ssd1331.flush (d : Ssd1331 CommE PinE) :
    Except (Error CommE PinE) Unit × Ssd1331 CommE PinE :=
  match d.set_draw_area (0, 0) (DISPLAY_WIDTH - 1, DISPLAY_HEIGHT - 1) with
  | (Except.error e, d1) => (Except.error e, d1)
  | (Except.ok _, d1) =>
      match d1.bus.setDc true with
      | (Except.error e, bus1) => (Except.error (Error.Pin e), { d1 with bus := bus1 })
      | (Except.ok _, bus1) =>
          match bus1.spiWrite d1.buffer with
          | (Except.error e, bus2) => (Except.error (Error.Comm e), { d1 with bus := bus2 })
          | (Except.ok _, bus2) => (Except.ok (), { d1 with bus := bus2 })

/-- The common tail of Ssd1331::set_pixel (src/display.rs lines 250-259):
the idx bound guard against self.buffer.len() - 1 and, when it passes, the
two byte stores self.buffer[idx] = high and self.buffer[idx + 1] = low. -/
def Ssd1331.set_pixel_at (d : Ssd1331 CommE PinE) (idx : Nat) (value : Nat) :
    Ssd1331 CommE PinE :=
  if idx ≥ d.buffer.length - 1 then d
  else
    { d with buffer :=
        (d.buffer.set idx ((value &&& 0xff00) >>> 8)).set (idx + 1) (value &&& 0xff) }

/-- Ssd1331::set_pixel (src/display.rs lines 233-260).  x, y are u32 and
the index arithmetic is usize; all values stay below 2 to the 40, so Nat is
faithful.  An early return leaves the state unchanged. -/
def Ssd1331.set_pixel (d : Ssd1331 CommE PinE) (x y : Nat) (value : Nat) :
    Ssd1331 CommE PinE :=
  match d.display_rotation with
  | DisplayRotation.Rotate0 | DisplayRotation.Rotate180 =>
      if x ≥ DISPLAY_WIDTH then d
      else Ssd1331.set_pixel_at d ((y * DISPLAY_WIDTH + x) * 2) value
  | DisplayRotation.Rotate90 | DisplayRotation.Rotate270 =>
      if y ≥ DISPLAY_WIDTH then d
      else Ssd1331.set_pixel_at d ((y * DISPLAY_HEIGHT + x) * 2) value

/-- Ssd1331::set_rotation (src/display.rs lines 330-373): store the new
rotation, then send the matching RemapAndColorDepth command. -/
def Ssd1331.set_rotation (d : Ssd1331 CommE PinE) (rot : DisplayRotation) :
    Except (Error CommE PinE) Unit × Ssd1331 CommE PinE :=
  let d0 := { d with display_rotation := rot }
  match rot with
  | DisplayRotation.Rotate0 =>
      match d0.sendCmd (Command.RemapAndColorDepth false false ColorMode.CM65k
          AddressIncrementMode.Horizontal) with
      | (Except.error e, d1) => (Except.error e, d1)
      | (Except.ok _, d1) => (Except.ok (), d1)
  | DisplayRotation.Rotate90 =>
      match d0.sendCmd (Command.RemapAndColorDepth true false ColorMode.CM65k
          AddressIncrementMode.Vertical) with
      | (Except.error e, d1) => (Except.error e, d1)
      | (Except.ok _, d1) => (Except.ok (), d1)
  | DisplayRotation.Rotate180 =>
      match d0.sendCmd (Command.RemapAndColorDepth true true ColorMode.CM65k
          AddressIncrementMode.Horizontal) with
      | (Except.error e, d1) => (Except.error e, d1)
      | (Except.ok _, d1) => (Except.ok (), d1)
  | DisplayRotation.Rotate270 =>
      match d0.sendCmd (Command.RemapAndColorDepth false true ColorMode.CM65k
          AddressIncrementMode.Vertical) with
      | (Except.error e, d1) => (Except.error e, d1)
      | (Except.ok _, d1) => (Except.ok (), d1)

/-- The RemapAndColorDepth command that set_rotation sends for a given
rotation (the four match arms of src/display.rs lines 333-370). -/
def remapCommandFor : DisplayRotation → Command
| DisplayRotation.Rotate0 =>
    Command.RemapAndColorDepth false false ColorMode.CM65k AddressIncrementMode.Horizontal
| DisplayRotation.Rotate90 =>
    Command.RemapAndColorDepth true false ColorMode.CM65k AddressIncrementMode.Vertical
| DisplayRotation.Rotate180 =>
    Command.RemapAndColorDepth true true ColorMode.CM65k AddressIncrementMode.Horizontal
| DisplayRotation.Rotate270 =>
    Command.RemapAndColorDepth false true ColorMode.CM65k AddressIncrementMode.Vertical

/-- The twelve commands of Ssd1331::init (src/display.rs lines 266-280),
in source order.  Used to state which prefixes have been transmitted when a
sub-operation mid-sequence fails. -/
def initCommandList (rot : DisplayRotation) : List Command :=
  [Command.DisplayOn false, Command.DisplayClockDiv 0xF 0x0,
   Command.Multiplex (DISPLAY_HEIGHT - 1), Command.StartLine 0,
   Command.DisplayOffset 0, remapCommandFor rot,
   Command.Contrast 0x91 0x50 0x7D, Command.PreChargePeriod 0x1 0xF,
   Command.VcomhDeselect VcomhLevel.V071, Command.AllOn false,
   Command.Invert false, Command.DisplayOn true]

/-- Ssd1331::init (src/display.rs lines 263-283): the twelve-command
bring-up sequence, aborting at the first failure. -/
def Ssd1331.init (d : Ssd1331 CommE PinE) :
    Except (Error CommE PinE) Unit × Ssd1331 CommE PinE :=
  let display_rotation := d.display_rotation
  match d.sendCmd (Command.DisplayOn false) with
  | (Except.error e, d1) => (Except.error e, d1)
  | (Except.ok _, d1) =>
  match d1.sendCmd (Command.DisplayClockDiv 0xF 0x0) with
  | (Except.error e, d2) => (Except.error e, d2)
  | (Except.ok _, d2) =>
  match d2.sendCmd (Command.Multiplex (DISPLAY_HEIGHT - 1)) with
  | (Except.error e, d3) => (Except.error e, d3)
  | (Except.ok _, d3) =>
  match d3.sendCmd (Command.StartLine 0) with
  | (Except.error e, d4) => (Except.error e, d4)
  | (Except.ok _, d4) =>
  match d4.sendCmd (Command.DisplayOffset 0) with
  | (Except.error e, d5) => (Except.error e, d5)
  | (Except.ok _, d5) =>
  match d5.set_rotation display_rotation with
  | (Except.error e, d6) => (Except.error e, d6)
  | (Except.ok _, d6) =>
  match d6.sendCmd (Command.Contrast 0x91 0x50 0x7D) with
  | (Except.error e, d7) => (Except.error e, d7)
  | (Except.ok _, d7) =>
  match d7.sendCmd (Command.PreChargePeriod 0x1 0xF) with
  | (Except.error e, d8) => (Except.error e, d8)
  | (Except.ok _, d8) =>
  match d8.sendCmd (Command.VcomhDeselect VcomhLevel.V071) with
  | (Except.error e, d9) => (Except.error e, d9)
  | (Except.ok _, d9) =>
  match d9.sendCmd (Command.AllOn false) with
  | (Except.error e, d10) => (Except.error e, d10)
  | (Except.ok _, d10) =>
  match d10.sendCmd (Command.Invert false) with
  | (Except.error e, d11) => (Except.error e, d11)
  | (Except.ok _, d11) =>
  match d11.sendCmd (Command.DisplayOn true) with
  | (Except.error e, d12) => (Except.error e, d12)
  | (Except.ok _, d12) => (Except.ok (), d12)

/-- Ssd1331::dimensions (src/display.rs lines 318-327). -/
def Ssd1331.dimensions (d : Ssd1331 CommE PinE) : Nat × Nat :=
  match d.display_rotation with
  | DisplayRotation.Rotate0 | DisplayRotation.Rotate180 =>
      (DISPLAY_WIDTH, DISPLAY_HEIGHT)
  | DisplayRotation.Rotate90 | DisplayRotation.Rotate270 =>
      (DISPLAY_HEIGHT, DISPLAY_WIDTH)

/-! ## Helper lemmas -/

lemma shiftRight_and_distrib (x y n : Nat) : (x &&& y) >>> n = (x >>> n) &&& (y >>> n) := by
  apply Nat.eq_of_testBit_eq
  intro i
  simp [Nat.testBit_shiftRight, Nat.testBit_and]

lemma and_thirtyone (x : Nat) : x &&& 31 = x % 32 := by
  simpa using Nat.and_pow_two_sub_one_eq_mod x 5

lemma and_sixtythree (x : Nat) : x &&& 63 = x % 64 := by
  simpa using Nat.and_pow_two_sub_one_eq_mod x 6

lemma and_sixtytwo_of_lt (z : Nat) (h : z < 64) : z &&& 62 = z / 2 * 2 := by
  revert h
  revert z
  decide

/-- Evaluating the raw16 colour converter arithmetically, for u16 inputs. -/
lemma raw16_to_ssd1331_accel_eq (raw : Nat) (h : raw < 65536) :
    raw16_to_ssd1331_accel raw = ((raw % 32) * 2, (raw / 32) % 64, (raw / 2048) * 2) := by
  unfold raw16_to_ssd1331_accel
  have hblue : ((raw &&& 31) <<< 1) % 256 = (raw % 32) * 2 := by
    rw [and_thirtyone, Nat.shiftLeft_eq]
    have hb : raw % 32 < 32 := Nat.mod_lt _ (by omega)
    rw [Nat.mod_eq_of_lt (by omega)]
  have hgreen : ((raw &&& 2016) >>> 5) % 256 = (raw / 32) % 64 := by
    rw [shiftRight_and_distrib]
    have h2016 : (2016 : Nat) >>> 5 = 63 := by decide
    rw [h2016, and_sixtythree, Nat.shiftRight_eq_div_pow]
    have hb : raw / 2 ^ 5 % 64 < 64 := Nat.mod_lt _ (by omega)
    rw [Nat.mod_eq_of_lt (by omega)]
  have hred : ((raw &&& 63488) >>> 10) % 256 = (raw / 2048) * 2 := by
    rw [shiftRight_and_distrib]
    have h63488 : (63488 : Nat) >>> 10 = 62 := by decide
    have hz : raw >>> 10 = raw / 1024 := by
      rw [Nat.shiftRight_eq_div_pow]
    have hzlt : raw / 1024 < 64 := by omega
    rw [h63488, hz, and_sixtytwo_of_lt _ hzlt, Nat.div_div_eq_div_mul]
    have hb : raw / 2048 < 32 := by omega
    rw [Nat.mod_eq_of_lt (by omega)]
  simpa using ⟨hblue, hgreen, hred⟩

lemma and_fifteen (x : Nat) : 0xF &&& x = x % 16 := by
  rw [Nat.and_comm]
  simpa using Nat.and_pow_two_sub_one_eq_mod x 4

lemma nibble_pack (a b : Nat) (ha : a < 16) (hb : b < 16) :
    (a <<< 4) ||| b = a * 16 + b := by
  revert hb
  revert b
  revert ha
  revert a
  decide

/-- Unfolding set_pixel for the Rotate0 / Rotate180 arm. -/
lemma set_pixel_eq_of_rot0_or_180 (d : Ssd1331 CommE PinE)
    (hrot : d.display_rotation = DisplayRotation.Rotate0
      ∨ d.display_rotation = DisplayRotation.Rotate180) (x y v : Nat) :
    d.set_pixel x y v =
      if x ≥ DISPLAY_WIDTH then d
      else d.set_pixel_at ((y * DISPLAY_WIDTH + x) * 2) v := by
  obtain ⟨buf, rot, bus⟩ := d
  rcases hrot with h | h <;> (simp only at h; subst h; rfl)

/-- Unfolding set_pixel for the Rotate90 / Rotate270 arm: the guard checks
y against DISPLAY_WIDTH (96) and the stride is DISPLAY_HEIGHT (64). -/
lemma set_pixel_eq_of_rot90_or_270 (d : Ssd1331 CommE PinE)
    (hrot : d.display_rotation = DisplayRotation.Rotate90
      ∨ d.display_rotation = DisplayRotation.Rotate270) (x y v : Nat) :
    d.set_pixel x y v =
      if y ≥ DISPLAY_WIDTH then d
      else d.set_pixel_at ((y * DISPLAY_HEIGHT + x) * 2) v := by
  obtain ⟨buf, rot, bus⟩ := d
  rcases hrot with h | h <;> (simp only at h; subst h; rfl)

/-- A command sent on a bus whose failure scripts are exhausted succeeds,
records one command-mode pin transition and one chunk of bytes. -/
lemma send_ok (c : Command) (bus : Bus CommE PinE)
    (hdc : bus.dcFailures = []) (hcomm : bus.commFailures = []) :
    c.send bus = (Except.ok (),
      { bus with dcTrace := bus.dcTrace ++ [false],
                 writes := bus.writes ++ [c.bytes] }) := by
  obtain ⟨dcs, ccs, dct, wr⟩ := bus
  simp only at hdc hcomm
  subst hdc
  subst hcomm
  rfl

/-- sendCmd on the driver, success case. -/
lemma sendCmd_ok (d : Ssd1331 CommE PinE) (c : Command)
    (hdc : d.bus.dcFailures = []) (hcomm : d.bus.commFailures = []) :
    d.sendCmd c = (Except.ok (),
      { d with bus := { d.bus with
          dcTrace := d.bus.dcTrace ++ [false]
          writes := d.bus.writes ++ [c.bytes] } }) := by
  simp [Ssd1331.sendCmd, send_ok c d.bus hdc hcomm]

/-- Ssd1331::flush on a failure-free bus: two window commands, a pin
transition to data mode, then the whole buffer as one chunk. -/
lemma flush_ok (d : Ssd1331 CommE PinE)
    (hdc : d.bus.dcFailures = []) (hcomm : d.bus.commFailures = []) :
    d.flush = (Except.ok (),
      { d with bus := { d.bus with
          dcTrace := d.bus.dcTrace ++ [false, false, true]
          writes := d.bus.writes ++
            [Command.bytes (Command.ColumnAddress 0 (DISPLAY_WIDTH - 1)),
             Command.bytes (Command.RowAddress 0 (DISPLAY_HEIGHT - 1)),
             d.buffer] } }) := by
  obtain ⟨buf, rot, bus⟩ := d
  obtain ⟨dcs, ccs, dct, wr⟩ := bus
  simp only at hdc hcomm
  subst hdc
  subst hcomm
  simp [Ssd1331.flush, Ssd1331.set_draw_area, Ssd1331.sendCmd, Command.send,
    Bus.setDc, Bus.spiWrite]

/-- Ssd1331::init on a failure-free bus: exactly the twelve bring-up
commands, in source order, each in command mode. -/
lemma init_ok (d : Ssd1331 CommE PinE)
    (hdc : d.bus.dcFailures = []) (hcomm : d.bus.commFailures = []) :
    d.init = (Except.ok (),
      { d with bus := { d.bus with
          dcTrace := d.bus.dcTrace ++
            [false, false, false, false, false, false,
             false, false, false, false, false, false]
          writes := d.bus.writes ++ List.map Command.bytes
            [Command.DisplayOn false, Command.DisplayClockDiv 0xF 0x0,
             Command.Multiplex (DISPLAY_HEIGHT - 1), Command.StartLine 0,
             Command.DisplayOffset 0, remapCommandFor d.display_rotation,
             Command.Contrast 0x91 0x50 0x7D, Command.PreChargePeriod 0x1 0xF,
             Command.VcomhDeselect VcomhLevel.V071, Command.AllOn false,
             Command.Invert false, Command.DisplayOn true] } }) := by
  obtain ⟨buf, rot, bus⟩ := d
  obtain ⟨dcs, ccs, dct, wr⟩ := bus
  simp only at hdc hcomm
  subst hdc
  subst hcomm
  cases rot <;>
    simp [Ssd1331.init, Ssd1331.sendCmd, Ssd1331.set_rotation, Command.send,
      Bus.setDc, Bus.spiWrite, remapCommandFor]

/-- A fresh driver buffer has BUF_SIZE bytes. -/
lemma new_buffer_length (bus : Bus CommE PinE) (rot : DisplayRotation) :
    (Ssd1331.new bus rot).buffer.length = BUF_SIZE := by
  show (List.replicate BUF_SIZE (0 : Nat)).length = BUF_SIZE
  exact List.length_replicate _ _

/-! ## Claim theorems -/

/-- C1 counterexample: the claim asserts that
RemapAndColorDepth(false,false,CM65k,Horizontal) encodes configuration byte
0x20 and that RemapAndColorDepth(true,true,CM65k,Horizontal) encodes 0x32.
Both literals are false on the code: CM65k has discriminant 1 and is shifted
into bit 6, so the bytes carry the additional 0x40. -/
theorem remap_claimed_literals_false :
    Command.bytes (Command.RemapAndColorDepth false false ColorMode.CM65k
        AddressIncrementMode.Horizontal) ≠ [0xA0, 0x20] ∧
    Command.bytes (Command.RemapAndColorDepth true true ColorMode.CM65k
        AddressIncrementMode.Horizontal) ≠ [0xA0, 0x32] := by
  constructor
  · decide
  · decide

/-- C1 (amended): RemapAndColorDepth encodes opcode 0xA0 followed by one
configuration byte equal to base 0x20 plus 2 for h_mirror, 16 for v_mirror,
64 for colour mode CM65k and 1 for vertical address increment; in
particular (false,false,CM65k,Horizontal) encodes 0x60 and
(true,true,CM65k,Horizontal) encodes 0x72. -/
theorem remap_config_byte_amended (hm vm : Bool) (cm : ColorMode)
    (am : AddressIncrementMode) :
    Command.bytes (Command.RemapAndColorDepth hm vm cm am) =
      [0xA0, 0x20 + (if hm then 2 else 0) + (if vm then 16 else 0)
        + (if cm = ColorMode.CM65k then 64 else 0)
        + (if am = AddressIncrementMode.Vertical then 1 else 0)] ∧
    Command.bytes (Command.RemapAndColorDepth false false ColorMode.CM65k
        AddressIncrementMode.Horizontal) = [0xA0, 0x60] ∧
    Command.bytes (Command.RemapAndColorDepth true true ColorMode.CM65k
        AddressIncrementMode.Horizontal) = [0xA0, 0x72] := by
  refine ⟨?_, by decide, by decide⟩
  cases hm <;> cases vm <;> cases cm <;> cases am <;> decide

/-- C5: DisplayClockDiv(osc,div) packs its payload byte with osc in the
high nibble and div in the low nibble, while PreChargePeriod(p1,p2) packs
p2 in the high nibble and p1 in the low nibble; out-of-range inputs are
truncated by the 0xF masks (mod 16). -/
theorem clock_div_precharge_nibble_packing (fosc div p1 p2 : Nat) :
    Command.bytes (Command.DisplayClockDiv fosc div) =
      [0xB3, (fosc % 16) * 16 + div % 16] ∧
    Command.bytes (Command.PreChargePeriod p1 p2) =
      [0x3E, (p2 % 16) * 16 + p1 % 16] := by
  constructor
  · show [0xB3, ((0xF &&& fosc) <<< 4) ||| (0xF &&& div)] = _
    rw [and_fifteen, and_fifteen,
      nibble_pack _ _ (Nat.mod_lt _ (by omega)) (Nat.mod_lt _ (by omega))]
  · show [0x3E, ((0xF &&& p2) <<< 4) ||| (0xF &&& p1)] = _
    rw [and_fifteen, and_fifteen,
      nibble_pack _ _ (Nat.mod_lt _ (by omega)) (Nat.mod_lt _ (by omega))]

/-- C7: for a 16-bit RGB565 colour in a DrawLine or DrawRect command, the
channel bytes on the wire after the four coordinate bytes are, in order:
red = bits 15-11 shifted right by 10 (equivalently, raw / 2048 doubled),
green = bits 10-5 shifted right by 5 (raw / 32 mod 64), and
blue = bits 4-0 shifted left by 1 (raw mod 32 doubled). -/
theorem draw_accel_colour_channel_bytes (c1 r1 c2 r2 lraw fraw : Nat)
    (hl : lraw < 65536) (hf : fraw < 65536) :
    Command.bytes (Command.DrawLine c1 r1 c2 r2 lraw) =
      [0x21, c1, r1, c2, r2,
        (lraw / 2048) * 2, (lraw / 32) % 64, (lraw % 32) * 2] ∧
    Command.bytes (Command.DrawRect c1 r1 c2 r2 lraw fraw) =
      [0x22, c1, r1, c2, r2,
        (lraw / 2048) * 2, (lraw / 32) % 64, (lraw % 32) * 2,
        (fraw / 2048) * 2, (fraw / 32) % 64, (fraw % 32) * 2] := by
  have hL := raw16_to_ssd1331_accel_eq lraw hl
  have hF := raw16_to_ssd1331_accel_eq fraw hf
  constructor
  · simp [Command.bytes, Command.encodeArr, hL]
  · simp [Command.bytes, Command.encodeArr, hL, hF]

/-- Witness for C7 at the concrete colours 0xF800 (pure red) and 0x07E0
(pure green). -/
theorem draw_accel_colour_channel_bytes_witness :
    (0xF800 : Nat) < 65536 ∧ (0x07E0 : Nat) < 65536 ∧
    (Command.bytes (Command.DrawLine 1 2 3 4 0xF800) =
      [0x21, 1, 2, 3, 4, 0x3E, 0, 0] ∧
    Command.bytes (Command.DrawRect 1 2 3 4 0xF800 0x07E0) =
      [0x22, 1, 2, 3, 4, 0x3E, 0, 0, 0, 0x3F, 0]) :=
  ⟨by decide, by decide,
    draw_accel_colour_channel_bytes 1 2 3 4 0xF800 0x07E0 (by decide) (by decide)⟩

/-- C8: dimensions() returns (96, 64) for rotations 0 and 180 degrees and
(64, 96) for rotations 90 and 270 degrees, and it is a pure read of the
stored rotation: two driver states with equal rotation have equal
dimensions. -/
theorem dimensions_by_rotation (CommE PinE : Type) (d d2 : Ssd1331 CommE PinE)
    (h : d.display_rotation = d2.display_rotation) :
    d.dimensions = (if d.display_rotation = DisplayRotation.Rotate0
        ∨ d.display_rotation = DisplayRotation.Rotate180
      then (96, 64) else (64, 96)) ∧
    d.dimensions = d2.dimensions := by
  constructor
  · cases hr : d.display_rotation <;>
      simp [Ssd1331.dimensions, hr, DISPLAY_WIDTH, DISPLAY_HEIGHT]
  · cases hr : d.display_rotation <;>
      simp [Ssd1331.dimensions, hr, ← h]

/-- C3: a successful init() sends exactly twelve commands, in the fixed
order display-off, clock divider, multiplex ratio 63, start line 0, display
offset 0, the remap command for the current rotation, contrast, pre-charge
period, VCOMH deselect, all-on false, invert false, display-on true. -/
theorem init_sends_twelve_commands (CommE PinE : Type) (d : Ssd1331 CommE PinE)
    (hdc : d.bus.dcFailures = []) (hcomm : d.bus.commFailures = []) :
    (d.init).1 = Except.ok () ∧
    (d.init).2.bus.writes = d.bus.writes ++ List.map Command.bytes
      [Command.DisplayOn false, Command.DisplayClockDiv 0xF 0x0,
       Command.Multiplex 63, Command.StartLine 0,
       Command.DisplayOffset 0, remapCommandFor d.display_rotation,
       Command.Contrast 0x91 0x50 0x7D, Command.PreChargePeriod 0x1 0xF,
       Command.VcomhDeselect VcomhLevel.V071, Command.AllOn false,
       Command.Invert false, Command.DisplayOn true] ∧
    (d.init).2.bus.dcTrace = d.bus.dcTrace ++
      [false, false, false, false, false, false,
       false, false, false, false, false, false] := by
  rw [init_ok d hdc hcomm]
  exact ⟨rfl, rfl, rfl⟩

/-- Witness for C3 at rotation 180 degrees on a fresh failure-free bus. -/
theorem init_sends_twelve_commands_witness :
    (Ssd1331.new (emptyBus Unit Unit) DisplayRotation.Rotate180).bus.dcFailures = [] ∧
    (Ssd1331.new (emptyBus Unit Unit) DisplayRotation.Rotate180).bus.commFailures = [] ∧
    (((Ssd1331.new (emptyBus Unit Unit) DisplayRotation.Rotate180).init).1 = Except.ok () ∧
    ((Ssd1331.new (emptyBus Unit Unit) DisplayRotation.Rotate180).init).2.bus.writes =
      (Ssd1331.new (emptyBus Unit Unit) DisplayRotation.Rotate180).bus.writes ++
        List.map Command.bytes
          [Command.DisplayOn false, Command.DisplayClockDiv 0xF 0x0,
           Command.Multiplex 63, Command.StartLine 0,
           Command.DisplayOffset 0,
           remapCommandFor (Ssd1331.new (emptyBus Unit Unit) DisplayRotation.Rotate180).display_rotation,
           Command.Contrast 0x91 0x50 0x7D, Command.PreChargePeriod 0x1 0xF,
           Command.VcomhDeselect VcomhLevel.V071, Command.AllOn false,
           Command.Invert false, Command.DisplayOn true] ∧
    ((Ssd1331.new (emptyBus Unit Unit) DisplayRotation.Rotate180).init).2.bus.dcTrace =
      (Ssd1331.new (emptyBus Unit Unit) DisplayRotation.Rotate180).bus.dcTrace ++
        [false, false, false, false, false, false,
         false, false, false, false, false, false]) :=
  ⟨rfl, rfl, init_sends_twelve_commands Unit Unit _ rfl rfl⟩

/-- C4: flush() first programs the full-extent window with
ColumnAddress(0,95) then RowAddress(0,63) as command-mode transfers, then
transmits the whole framebuffer as a single data-mode block, for any driver
state (hence regardless of rotation or of any earlier set_draw_area). -/
theorem flush_resets_window_then_sends_buffer (CommE PinE : Type)
    (d : Ssd1331 CommE PinE)
    (hdc : d.bus.dcFailures = []) (hcomm : d.bus.commFailures = []) :
    (d.flush).1 = Except.ok () ∧
    (d.flush).2.bus.writes = d.bus.writes ++
      [Command.bytes (Command.ColumnAddress 0 95),
       Command.bytes (Command.RowAddress 0 63),
       d.buffer] ∧
    (d.flush).2.bus.dcTrace = d.bus.dcTrace ++ [false, false, true] := by
  rw [flush_ok d hdc hcomm]
  exact ⟨rfl, rfl, rfl⟩

/-- Witness for C4: flushing a display whose previous set_draw_area left
the partial window (10,20)-(30,40) active still resets to the full extent. -/
theorem flush_resets_window_witness :
    (((Ssd1331.new (emptyBus Unit Unit) DisplayRotation.Rotate90).set_draw_area
        (10, 20) (30, 40)).2).bus.dcFailures = [] ∧
    (((Ssd1331.new (emptyBus Unit Unit) DisplayRotation.Rotate90).set_draw_area
        (10, 20) (30, 40)).2).bus.commFailures = [] ∧
    ((((Ssd1331.new (emptyBus Unit Unit) DisplayRotation.Rotate90).set_draw_area
        (10, 20) (30, 40)).2.flush).1 = Except.ok () ∧
    (((Ssd1331.new (emptyBus Unit Unit) DisplayRotation.Rotate90).set_draw_area
        (10, 20) (30, 40)).2.flush).2.bus.writes =
      (((Ssd1331.new (emptyBus Unit Unit) DisplayRotation.Rotate90).set_draw_area
        (10, 20) (30, 40)).2).bus.writes ++
        [Command.bytes (Command.ColumnAddress 0 95),
         Command.bytes (Command.RowAddress 0 63),
         (((Ssd1331.new (emptyBus Unit Unit) DisplayRotation.Rotate90).set_draw_area
           (10, 20) (30, 40)).2).buffer] ∧
    (((Ssd1331.new (emptyBus Unit Unit) DisplayRotation.Rotate90).set_draw_area
        (10, 20) (30, 40)).2.flush).2.bus.dcTrace =
      (((Ssd1331.new (emptyBus Unit Unit) DisplayRotation.Rotate90).set_draw_area
        (10, 20) (30, 40)).2).bus.dcTrace ++ [false, false, true]) :=
  ⟨rfl, rfl, flush_resets_window_then_sends_buffer Unit Unit _ rfl rfl⟩

/-- A bus whose next data/command pin operation fails with the unit error. -/
def busPinFail : Bus Unit Unit :=
  { dcFailures := [some ()], commFailures := [], dcTrace := [], writes := [] }

/-- A bus whose pin operations succeed but whose next transport write fails
with the unit error. -/
def busCommFail : Bus Unit Unit :=
  { dcFailures := [none], commFailures := [some ()], dcTrace := [], writes := [] }

/-- A bus whose sixth data/command pin operation fails (five successes
first); all transport writes succeed. -/
def busMidPin : Bus Unit Unit :=
  { dcFailures := [none, none, none, none, none, some ()], commFailures := []
    dcTrace := [], writes := [] }

/-- A bus whose third transport write fails (two successes first); all pin
operations succeed. -/
def busMidComm : Bus Unit Unit :=
  { dcFailures := [], commFailures := [none, none, some ()]
    dcTrace := [], writes := [] }

/-- C6: when driving the data/command line low fails, sending a command
returns a Pin error and performs no transport write; when the transport
write fails, it returns a Comm error; a failure of ANY sub-operation of
init (any of the twelve commands) or of flush (either window command, the
data-mode pin transition, or the buffer write) aborts the enclosing
operation immediately with that same error, with exactly the commands
before the failure transmitted and nothing retried or sent afterwards; and
every error any of these operations can return is either a Comm or a Pin
error.  The failure position is selected by the bus scripts: k successful
sub-operations of the failing capability precede the failure. -/
theorem error_kinds_and_propagation (CommE PinE : Type) (c : Command)
    (bus : Bus CommE PinE) (e : PinE) (ce : CommE)
    (dcs : List (Option PinE)) (ccs : List (Option CommE))
    (d : Ssd1331 CommE PinE) (err : Error CommE PinE) :
    (bus.dcFailures = some e :: dcs →
      c.send bus = (Except.error (Error.Pin e), { bus with dcFailures := dcs }) ∧
      (c.send bus).2.writes = bus.writes) ∧
    (bus.dcFailures = none :: dcs → bus.commFailures = some ce :: ccs →
      c.send bus = (Except.error (Error.Comm ce),
        { bus with
            dcFailures := dcs
            commFailures := ccs
            dcTrace := bus.dcTrace ++ [false] })) ∧
    (∀ k, k ≤ 11 →
      d.bus.dcFailures = List.replicate k none ++ some e :: dcs →
      d.bus.commFailures = [] →
      (d.init).1 = Except.error (Error.Pin e) ∧
      (d.init).2.bus.writes = d.bus.writes ++
        List.map Command.bytes (List.take k (initCommandList d.display_rotation))) ∧
    (∀ k, k ≤ 11 →
      d.bus.dcFailures = [] →
      d.bus.commFailures = List.replicate k none ++ some ce :: ccs →
      (d.init).1 = Except.error (Error.Comm ce) ∧
      (d.init).2.bus.writes = d.bus.writes ++
        List.map Command.bytes (List.take k (initCommandList d.display_rotation))) ∧
    (∀ k, k ≤ 2 →
      d.bus.dcFailures = List.replicate k none ++ some e :: dcs →
      d.bus.commFailures = [] →
      (d.flush).1 = Except.error (Error.Pin e) ∧
      (d.flush).2.bus.writes = d.bus.writes ++
        List.take k [Command.bytes (Command.ColumnAddress 0 95),
                     Command.bytes (Command.RowAddress 0 63)]) ∧
    (∀ k, k ≤ 2 →
      d.bus.dcFailures = [] →
      d.bus.commFailures = List.replicate k none ++ some ce :: ccs →
      (d.flush).1 = Except.error (Error.Comm ce) ∧
      (d.flush).2.bus.writes = d.bus.writes ++
        List.take k [Command.bytes (Command.ColumnAddress 0 95),
                     Command.bytes (Command.RowAddress 0 63)]) ∧
    ((d.init).1 = Except.error err ∨ (d.flush).1 = Except.error err ∨
        (c.send d.bus).1 = Except.error err →
      (∃ pe, err = Error.Pin pe) ∨ (∃ cme, err = Error.Comm cme)) := by
  refine ⟨?_, ?_, ?_, ?_, ?_, ?_, ?_⟩
  · intro h
    obtain ⟨dcs0, ccs0, dct0, wr0⟩ := bus
    simp only at h
    subst h
    exact ⟨rfl, rfl⟩
  · intro h h2
    obtain ⟨dcs0, ccs0, dct0, wr0⟩ := bus
    simp only at h h2
    subst h
    subst h2
    rfl
  · intro k hk hdc hcomm
    obtain ⟨buf, rot, bus0⟩ := d
    obtain ⟨dcs0, ccs0, dct0, wr0⟩ := bus0
    simp only at hdc hcomm
    subst hdc
    subst hcomm
    cases rot <;> interval_cases k <;>
      simp [Ssd1331.init, Ssd1331.sendCmd, Ssd1331.set_rotation, Command.send,
        Bus.setDc, Bus.spiWrite, initCommandList, remapCommandFor,
        List.replicate_succ]
  · intro k hk hdc hcomm
    obtain ⟨buf, rot, bus0⟩ := d
    obtain ⟨dcs0, ccs0, dct0, wr0⟩ := bus0
    simp only at hdc hcomm
    subst hdc
    subst hcomm
    cases rot <;> interval_cases k <;>
      simp [Ssd1331.init, Ssd1331.sendCmd, Ssd1331.set_rotation, Command.send,
        Bus.setDc, Bus.spiWrite, initCommandList, remapCommandFor,
        List.replicate_succ]
  · intro k hk hdc hcomm
    obtain ⟨buf, rot, bus0⟩ := d
    obtain ⟨dcs0, ccs0, dct0, wr0⟩ := bus0
    simp only at hdc hcomm
    subst hdc
    subst hcomm
    interval_cases k <;>
      simp [Ssd1331.flush, Ssd1331.set_draw_area, Ssd1331.sendCmd, Command.send,
        Bus.setDc, Bus.spiWrite, List.replicate_succ, DISPLAY_WIDTH, DISPLAY_HEIGHT]
  · intro k hk hdc hcomm
    obtain ⟨buf, rot, bus0⟩ := d
    obtain ⟨dcs0, ccs0, dct0, wr0⟩ := bus0
    simp only at hdc hcomm
    subst hdc
    subst hcomm
    interval_cases k <;>
      simp [Ssd1331.flush, Ssd1331.set_draw_area, Ssd1331.sendCmd, Command.send,
        Bus.setDc, Bus.spiWrite, List.replicate_succ, DISPLAY_WIDTH, DISPLAY_HEIGHT]
  · intro _
    cases err with
    | Comm x => exact Or.inr ⟨x, rfl⟩
    | Pin x => exact Or.inl ⟨x, rfl⟩

/-- Witness for C6 on concrete failing buses with unit error types: a pin
failure at the first send, a transport failure at a send, a pin failure at
the sixth init command (the remap command, after five successes), a
transport failure at the third init command (Multiplex), and a transport
failure at the buffer write of flush (after both window commands). -/
theorem error_kinds_and_propagation_witness :
    (Command.send Command.Noop busPinFail =
        (Except.error (Error.Pin ()), { busPinFail with dcFailures := [] }) ∧
      (Command.send Command.Noop busPinFail).2.writes = busPinFail.writes) ∧
    (Command.send Command.Noop busCommFail =
      (Except.error (Error.Comm ()),
        { busCommFail with
            dcFailures := []
            commFailures := []
            dcTrace := busCommFail.dcTrace ++ [false] })) ∧
    (((Ssd1331.new busMidPin DisplayRotation.Rotate180).init).1 =
        Except.error (Error.Pin ()) ∧
      ((Ssd1331.new busMidPin DisplayRotation.Rotate180).init).2.bus.writes =
        (Ssd1331.new busMidPin DisplayRotation.Rotate180).bus.writes ++
          List.map Command.bytes (List.take 5 (initCommandList
            (Ssd1331.new busMidPin DisplayRotation.Rotate180).display_rotation))) ∧
    (((Ssd1331.new busMidComm DisplayRotation.Rotate0).init).1 =
        Except.error (Error.Comm ()) ∧
      ((Ssd1331.new busMidComm DisplayRotation.Rotate0).init).2.bus.writes =
        (Ssd1331.new busMidComm DisplayRotation.Rotate0).bus.writes ++
          List.map Command.bytes (List.take 2 (initCommandList
            (Ssd1331.new busMidComm DisplayRotation.Rotate0).display_rotation))) ∧
    (((Ssd1331.new busMidComm DisplayRotation.Rotate90).flush).1 =
        Except.error (Error.Comm ()) ∧
      ((Ssd1331.new busMidComm DisplayRotation.Rotate90).flush).2.bus.writes =
        (Ssd1331.new busMidComm DisplayRotation.Rotate90).bus.writes ++
          List.take 2 [Command.bytes (Command.ColumnAddress 0 95),
                       Command.bytes (Command.RowAddress 0 63)]) ∧
    ((∃ pe, (Error.Pin () : Error Unit Unit) = Error.Pin pe) ∨
      (∃ cme, (Error.Pin () : Error Unit Unit) = Error.Comm cme)) := by
  have hA := error_kinds_and_propagation Unit Unit Command.Noop busPinFail () ()
    [] [] (Ssd1331.new busMidPin DisplayRotation.Rotate180) (Error.Pin ())
  have hB := error_kinds_and_propagation Unit Unit Command.Noop busCommFail () ()
    [] [] (Ssd1331.new busMidComm DisplayRotation.Rotate0) (Error.Pin ())
  have hC := error_kinds_and_propagation Unit Unit Command.Noop busCommFail () ()
    [] [] (Ssd1331.new busMidComm DisplayRotation.Rotate90) (Error.Pin ())
  exact ⟨hA.1 rfl, hB.2.1 rfl rfl, hA.2.2.1 5 (by decide) rfl rfl,
    hB.2.2.2.1 2 (by decide) rfl rfl, hC.2.2.2.2.2.1 2 (by decide) rfl rfl,
    hA.2.2.2.2.2.2 (Or.inl (hA.2.2.1 5 (by decide) rfl rfl).1)⟩

/-- C2 counterexample: under rotation 90 degrees the current-orientation
width bound is 64, yet set_pixel(64, 0, 0xFFFF) is not a no-op: the code
only guards y against 96 and the byte index against the buffer end, so the
write lands at buffer offsets 128 and 129. -/
theorem set_pixel_oob_x_rot90_changes_buffer :
    ((Ssd1331.new (emptyBus Unit Unit) DisplayRotation.Rotate90).set_pixel
        64 0 0xFFFF).buffer ≠
      (Ssd1331.new (emptyBus Unit Unit) DisplayRotation.Rotate90).buffer := by
  have hlen : (Ssd1331.new (emptyBus Unit Unit) DisplayRotation.Rotate90).buffer.length
      = BUF_SIZE := by
    show (List.replicate BUF_SIZE (0 : Nat)).length = BUF_SIZE
    exact List.length_replicate _ _
  have h1 : ((Ssd1331.new (emptyBus Unit Unit) DisplayRotation.Rotate90).set_pixel
      64 0 0xFFFF).buffer =
      ((List.replicate BUF_SIZE 0).set 128 0xFF).set 129 0xFF := by
    rw [set_pixel_eq_of_rot90_or_270 _ (Or.inl rfl) 64 0 0xFFFF,
      if_neg (by decide)]
    unfold Ssd1331.set_pixel_at
    rw [if_neg (by rw [hlen]; decide)]
    rfl
  intro hEq
  rw [h1] at hEq
  have h2 := congrArg (fun l => l[128]?) hEq
  simp only at h2
  rw [List.getElem?_set_ne (by omega)] at h2
  rw [List.getElem?_set_self
    (by rw [List.length_replicate]; decide)] at h2
  rw [show (Ssd1331.new (emptyBus Unit Unit) DisplayRotation.Rotate90).buffer
      = List.replicate BUF_SIZE 0 from rfl] at h2
  rw [List.getElem?_replicate] at h2
  have h255 : (255 : Nat) = 0 := by
    have := h2
    split at this
    · exact Option.some.inj this
    · exact absurd this (by simp)
  exact absurd h255 (by decide)

/-- C2 (amended): for rotations 0 and 180 degrees the claim holds as
stated: set_pixel is a silent no-op whenever x is at least 96 or y is at
least 64.  For rotations 90 and 270 degrees it is a silent no-op whenever y
is at least 96 or the computed byte index (y * 64 + x) * 2 reaches the
buffer-end guard BUF_SIZE - 1; an x of at least 64 with a small y is not
clipped but wraps to a smaller buffer offset (see the counterexample). -/
theorem set_pixel_noop_amended (CommE PinE : Type) (d : Ssd1331 CommE PinE)
    (x y v : Nat) (hlen : d.buffer.length = BUF_SIZE) :
    ((d.display_rotation = DisplayRotation.Rotate0 ∨
        d.display_rotation = DisplayRotation.Rotate180) →
      96 ≤ x ∨ 64 ≤ y → d.set_pixel x y v = d) ∧
    ((d.display_rotation = DisplayRotation.Rotate90 ∨
        d.display_rotation = DisplayRotation.Rotate270) →
      96 ≤ y ∨ BUF_SIZE - 1 ≤ (y * 64 + x) * 2 → d.set_pixel x y v = d) := by
  constructor
  · intro hrot hbound
    rw [set_pixel_eq_of_rot0_or_180 d hrot x y v]
    by_cases hx : x ≥ DISPLAY_WIDTH
    · rw [if_pos hx]
    · rw [if_neg hx]
      unfold Ssd1331.set_pixel_at
      rw [if_pos ?_]
      rw [hlen]
      simp only [DISPLAY_WIDTH, BUF_SIZE] at hx hbound ⊢
      omega
  · intro hrot hbound
    rw [set_pixel_eq_of_rot90_or_270 d hrot x y v]
    by_cases hy : y ≥ DISPLAY_WIDTH
    · rw [if_pos hy]
    · rw [if_neg hy]
      unfold Ssd1331.set_pixel_at
      rw [if_pos ?_]
      rw [hlen]
      simp only [DISPLAY_WIDTH, DISPLAY_HEIGHT, BUF_SIZE] at hy hbound ⊢
      omega

/-- Witness for C2 (amended) at rotation 0 with x = 200 out of range. -/
theorem set_pixel_noop_amended_witness :
    (Ssd1331.new (emptyBus Unit Unit) DisplayRotation.Rotate0).buffer.length = BUF_SIZE ∧
    ((((Ssd1331.new (emptyBus Unit Unit) DisplayRotation.Rotate0).display_rotation =
          DisplayRotation.Rotate0 ∨
        (Ssd1331.new (emptyBus Unit Unit) DisplayRotation.Rotate0).display_rotation =
          DisplayRotation.Rotate180) →
      96 ≤ 200 ∨ 64 ≤ 0 →
      (Ssd1331.new (emptyBus Unit Unit) DisplayRotation.Rotate0).set_pixel 200 0 7 =
        Ssd1331.new (emptyBus Unit Unit) DisplayRotation.Rotate0) ∧
    (((Ssd1331.new (emptyBus Unit Unit) DisplayRotation.Rotate0).display_rotation =
          DisplayRotation.Rotate90 ∨
        (Ssd1331.new (emptyBus Unit Unit) DisplayRotation.Rotate0).display_rotation =
          DisplayRotation.Rotate270) →
      96 ≤ 0 ∨ BUF_SIZE - 1 ≤ (0 * 64 + 200) * 2 →
      (Ssd1331.new (emptyBus Unit Unit) DisplayRotation.Rotate0).set_pixel 200 0 7 =
        Ssd1331.new (emptyBus Unit Unit) DisplayRotation.Rotate0)) :=
  ⟨by simp [Ssd1331.new], set_pixel_noop_amended Unit Unit _ 200 0 7 (by simp [Ssd1331.new])⟩

/-- C10: for every rotation, colour and coordinates, set_pixel either
leaves the whole driver state unchanged or changes only the buffer, and
only by the two stores at idx and idx + 1 with idx + 1 strictly below
BUF_SIZE = 12288; the rest of the state (rotation, bus) is untouched. -/
theorem set_pixel_writes_in_bounds (CommE PinE : Type) (d : Ssd1331 CommE PinE)
    (x y v : Nat) (hlen : d.buffer.length = BUF_SIZE) :
    d.set_pixel x y v = d ∨
    ∃ idx, idx + 1 < BUF_SIZE ∧
      d.set_pixel x y v =
        { d with buffer :=
            (d.buffer.set idx ((v &&& 0xff00) >>> 8)).set (idx + 1) (v &&& 0xff) } := by
  have main : ∀ idx, d.set_pixel_at idx v = d ∨
      (idx + 1 < BUF_SIZE ∧ d.set_pixel_at idx v =
        { d with buffer :=
            (d.buffer.set idx ((v &&& 0xff00) >>> 8)).set (idx + 1) (v &&& 0xff) }) := by
    intro idx
    unfold Ssd1331.set_pixel_at
    by_cases h : idx ≥ d.buffer.length - 1
    · exact Or.inl (by rw [if_pos h])
    · refine Or.inr ⟨?_, by rw [if_neg h]⟩
      rw [hlen] at h
      simp only [BUF_SIZE] at h ⊢
      omega
  have hsplit : (d.display_rotation = DisplayRotation.Rotate0 ∨
      d.display_rotation = DisplayRotation.Rotate180) ∨
      (d.display_rotation = DisplayRotation.Rotate90 ∨
      d.display_rotation = DisplayRotation.Rotate270) := by
    cases d.display_rotation <;> simp
  rcases hsplit with hrot | hrot
  · rw [set_pixel_eq_of_rot0_or_180 d hrot x y v]
    by_cases hx : x ≥ DISPLAY_WIDTH
    · exact Or.inl (by rw [if_pos hx])
    · rw [if_neg hx]
      rcases main ((y * DISPLAY_WIDTH + x) * 2) with h | ⟨hb, h⟩
      · exact Or.inl h
      · exact Or.inr ⟨_, hb, h⟩
  · rw [set_pixel_eq_of_rot90_or_270 d hrot x y v]
    by_cases hy : y ≥ DISPLAY_WIDTH
    · exact Or.inl (by rw [if_pos hy])
    · rw [if_neg hy]
      rcases main ((y * DISPLAY_HEIGHT + x) * 2) with h | ⟨hb, h⟩
      · exact Or.inl h
      · exact Or.inr ⟨_, hb, h⟩

/-- C9: under rotation 0, set_pixel(0, 0, 0xF800) stores 0xF8 at buffer
offset 0 and 0x00 at offset 1 (high byte then low byte), and a subsequent
flush transmits that buffer as the data block, whose first two bytes are
0xF8 then 0x00. -/
theorem red_pixel_roundtrip :
    ((Ssd1331.new (emptyBus Unit Unit) DisplayRotation.Rotate0).set_pixel
        0 0 0xF800).buffer[0]? = some 0xF8 ∧
    ((Ssd1331.new (emptyBus Unit Unit) DisplayRotation.Rotate0).set_pixel
        0 0 0xF800).buffer[1]? = some 0x00 ∧
    (((Ssd1331.new (emptyBus Unit Unit) DisplayRotation.Rotate0).set_pixel
        0 0 0xF800).flush).1 = Except.ok () ∧
    (((Ssd1331.new (emptyBus Unit Unit) DisplayRotation.Rotate0).set_pixel
        0 0 0xF800).flush).2.bus.writes =
      [Command.bytes (Command.ColumnAddress 0 95),
       Command.bytes (Command.RowAddress 0 63),
       ((Ssd1331.new (emptyBus Unit Unit) DisplayRotation.Rotate0).set_pixel
         0 0 0xF800).buffer] ∧
    (((Ssd1331.new (emptyBus Unit Unit) DisplayRotation.Rotate0).set_pixel
        0 0 0xF800).buffer).take 2 = [0xF8, 0x00] := by
  have hrep : List.replicate BUF_SIZE (0 : Nat) = 0 :: 0 :: List.replicate 12286 0 := by
    rw [show BUF_SIZE = 12286 + 1 + 1 from rfl, List.replicate_succ, List.replicate_succ]
  have h1 : (Ssd1331.new (emptyBus Unit Unit) DisplayRotation.Rotate0).set_pixel
      0 0 0xF800 =
      { buffer := ((List.replicate BUF_SIZE 0).set 0 0xF8).set 1 0x00
        display_rotation := DisplayRotation.Rotate0
        bus := emptyBus Unit Unit } := by
    rw [set_pixel_eq_of_rot0_or_180 _ (Or.inl rfl) 0 0 0xF800, if_neg (by decide)]
    unfold Ssd1331.set_pixel_at
    rw [if_neg (by rw [new_buffer_length]; decide)]
    rfl
  have hbuf : ((List.replicate BUF_SIZE (0 : Nat)).set 0 0xF8).set 1 0x00 =
      0xF8 :: 0x00 :: List.replicate 12286 0 := by
    rw [hrep]
    rfl
  have hf := flush_ok
    ({ buffer := ((List.replicate BUF_SIZE 0).set 0 0xF8).set 1 0x00
       display_rotation := DisplayRotation.Rotate0
       bus := emptyBus Unit Unit } : Ssd1331 Unit Unit) rfl rfl
  refine ⟨?_, ?_, ?_, ?_, ?_⟩
  · rw [h1]
    show (((List.replicate BUF_SIZE (0 : Nat)).set 0 0xF8).set 1 0x00)[0]? = some 0xF8
    rw [hbuf]
    exact List.getElem?_cons_zero
  · rw [h1]
    show (((List.replicate BUF_SIZE (0 : Nat)).set 0 0xF8).set 1 0x00)[1]? = some 0x00
    rw [hbuf]
    rw [List.getElem?_cons_succ]
    exact List.getElem?_cons_zero
  · rw [h1, hf]
  · rw [h1, hf]
    rfl
  · rw [h1]
    show ((((List.replicate BUF_SIZE (0 : Nat)).set 0 0xF8).set 1 0x00).take 2) = _
    rw [hbuf]
    rfl

/-- Witness for C10 at a concrete in-range write. -/
theorem set_pixel_writes_in_bounds_witness :
    (Ssd1331.new (emptyBus Unit Unit) DisplayRotation.Rotate270).buffer.length = BUF_SIZE ∧
    ((Ssd1331.new (emptyBus Unit Unit) DisplayRotation.Rotate270).set_pixel 3 5 0xABCD =
        Ssd1331.new (emptyBus Unit Unit) DisplayRotation.Rotate270 ∨
      ∃ idx, idx + 1 < BUF_SIZE ∧
        (Ssd1331.new (emptyBus Unit Unit) DisplayRotation.Rotate270).set_pixel 3 5 0xABCD =
          { Ssd1331.new (emptyBus Unit Unit) DisplayRotation.Rotate270 with
            buffer :=
              (((Ssd1331.new (emptyBus Unit Unit) DisplayRotation.Rotate270).buffer.set
                  idx ((0xABCD &&& 0xff00) >>> 8)).set (idx + 1) (0xABCD &&& 0xff)) }) :=
  ⟨by simp [Ssd1331.new],
    set_pixel_writes_in_bounds Unit Unit _ 3 5 0xABCD (by simp [Ssd1331.new])⟩

/-- Witness for C8 on two concrete driver states sharing rotation 90
degrees but with different buffers. -/
theorem dimensions_by_rotation_witness :
    (Ssd1331.new (emptyBus Unit Unit) DisplayRotation.Rotate90).display_rotation =
      ((Ssd1331.new (emptyBus Unit Unit) DisplayRotation.Rotate90).clear).display_rotation ∧
    ((Ssd1331.new (emptyBus Unit Unit) DisplayRotation.Rotate90).dimensions =
      (if (Ssd1331.new (emptyBus Unit Unit) DisplayRotation.Rotate90).display_rotation =
            DisplayRotation.Rotate0
          ∨ (Ssd1331.new (emptyBus Unit Unit) DisplayRotation.Rotate90).display_rotation =
            DisplayRotation.Rotate180
        then (96, 64) else (64, 96)) ∧
    (Ssd1331.new (emptyBus Unit Unit) DisplayRotation.Rotate90).dimensions =
      ((Ssd1331.new (emptyBus Unit Unit) DisplayRotation.Rotate90).clear).dimensions) :=
  ⟨rfl, dimensions_by_rotation Unit Unit _ _ rfl⟩

end SSD1331
